import Mathlib

/-!
Shallow embedding of the chat orchestration and session-persistence core of
the AITextGenie repository (Express routes in src/server/routes.ts, storage
layer DatabaseStorage, and the supabase auth / OpenRouter service modules).

Persisted state is modelled as lists of rows; list order is creation order
(the database orders reads by createdAt, and rows are only ever appended).
JavaScript strings are modelled as Lean strings; JavaScript truthiness of an
optional string is modelled by the predicate truthy below.
-/

namespace AITextGenie

/-- A row of the aiModels table: internal id, provider-routable model string,
active flag. -/
structure AiModel where
  id : String
  modelId : String
  isActive : Bool
deriving Repr, DecidableEq

/-- A row of the chatSessions table. The modelId foreign key is nullable
(set-null semantics on model deletion). -/
structure ChatSession where
  id : String
  userId : String
  title : String
  modelId : Option String
deriving Repr, DecidableEq

/-- A row of the chatMessages table. Creation order is the position in the
global message list of the store. -/
structure ChatMessage where
  sessionId : String
  role : String
  content : String
  tokenCount : Nat
deriving Repr, DecidableEq

/-- A row of the users table (an Identity). -/
structure UserRow where
  id : String
  email : String
  firstName : String
  lastName : String
  profileImageUrl : Option String
  role : String
  updatedAt : Nat
deriving Repr, DecidableEq

/-- The durable store: users, model catalog, sessions, messages, the
openrouter_api_key system setting, and a counter supplying fresh session
ids. -/
structure Store where
  users : List UserRow
  aiModels : List AiModel
  chatSessions : List ChatSession
  chatMessages : List ChatMessage
  apiKey : Option String
  nextSessionId : Nat
deriving Repr, DecidableEq

/-- JavaScript truthiness of an optional string: undefined and the empty
string are falsy. -/
def truthy : Option String → Bool
  | some s => !(s == "")
  | none => false

/-- The guard apiKeySetting?.value of routes.ts line 266: the setting must
exist and its value must be a nonempty string. -/
def hasApiKey (st : Store) : Bool :=
  truthy st.apiKey

/-- DatabaseStorage.getAiModelById: select the model row by id. -/
def getAiModelById (st : Store) (id : String) : Option AiModel :=
  st.aiModels.find? (fun m => m.id == id)

/-- DatabaseStorage.getMessagesBySessionId: all messages of the session,
ordered by createdAt (list order). -/
def getMessagesBySessionId (st : Store) (sessionId : String) : List ChatMessage :=
  st.chatMessages.filter (fun m => m.sessionId == sessionId)

/-- Model of database id generation for new chat sessions: a fresh id
derived from the store counter (the real store uses uuids). -/
def freshSessionId (st : Store) : String :=
  String.mk ('s' :: Nat.toDigits 10 st.nextSessionId)

/-- JavaScript string length (message.length). -/
def jsLength (s : String) : Nat :=
  s.data.length

/-- JavaScript message.slice(0, n). -/
def jsSlice (s : String) (n : Nat) : String :=
  String.mk (s.data.take n)

/-- The session title computed at routes.ts line 286:
message.slice(0, 50) + (message.length > 50 ? "..." : ""). -/
def mkTitle (message : String) : String :=
  jsSlice message 50 ++ (if jsLength message > 50 then "..." else "")

/-- One element of the provider-facing context list ({role, content}). -/
structure CtxMsg where
  role : String
  content : String
deriving Repr, DecidableEq

/-- Outcome of the OpenRouter completion call, abstracted: either a
normalized {content, tokenCount} or a thrown error (network failure,
non-ok status, or empty choice list). -/
inductive ProviderOutcome where
  | success (content : String) (tokenCount : Nat)
  | failure
deriving Repr, DecidableEq

/-- Result of one POST /api/chat/message request: HTTP status, the response
fields, the error message if any, the provider calls attempted (model
string and message list of each), and the store after the request. -/
structure ChatResult where
  status : Nat
  content : Option String
  sessionId : Option String
  tokenCount : Option Nat
  errMsg : Option String
  providerCalls : List (String × List CtxMsg)
  store : Store
deriving Repr, DecidableEq

/-- An early error response of the chat handler: no provider call, store
unchanged. -/
def errResult (status : Nat) (msg : String) (st : Store) : ChatResult :=
  { status := status, content := none, sessionId := none, tokenCount := none,
    errMsg := some msg, providerCalls := [], store := st }

/-- A POST /api/chat/message request body together with the identity
resolved from the Authorization header (none when the header is absent or
token verification failed: the handler then proceeds as guest). -/
structure ChatRequest where
  message : String
  modelId : String
  sessionId : Option String
  isGuest : Bool
  auth : Option String
deriving Repr, DecidableEq

/-- The POST /api/chat/message handler of routes.ts lines 245-338.
Step order as in the source: required-field guard, api key guard, model
lookup, session management and user-message persistence for the
authenticated non-guest branch, context assembly from the (already
updated) store, provider call, assistant-message persistence guarded by
!isGuest && chatSessionId, response. A thrown provider error is caught and
turned into a 500 response. -/
def handleChatMessage (st : Store) (req : ChatRequest) (provider : ProviderOutcome) :
    ChatResult :=
  if req.message == "" || req.modelId == "" then
    errResult 400 "Message and model ID are required" st
  else if !(hasApiKey st) then
    errResult 500 "OpenRouter API key not configured" st
  else
    match getAiModelById st req.modelId with
    | none => errResult 404 "Model not found" st
    | some model =>
      let authPair :=
        if !req.isGuest && truthy req.auth then
          let userId := req.auth.getD ""
          let sessPair :=
            if !(truthy req.sessionId) then
              let s : ChatSession :=
                { id := freshSessionId st, userId := userId,
                  title := mkTitle req.message, modelId := some req.modelId }
              ({ st with chatSessions := st.chatSessions ++ [s],
                         nextSessionId := st.nextSessionId + 1 }, some s.id)
            else (st, req.sessionId)
          let userMsg : ChatMessage :=
            { sessionId := sessPair.2.getD "", role := "user",
              content := req.message, tokenCount := (jsLength req.message + 3) / 4 }
          ({ sessPair.1 with chatMessages := sessPair.1.chatMessages ++ [userMsg] },
           sessPair.2)
        else (st, req.sessionId)
      let st1 := authPair.1
      let chatSessionId := authPair.2
      let ctx : List CtxMsg :=
        if truthy chatSessionId then
          (getMessagesBySessionId st1 (chatSessionId.getD "")).map
            (fun m => { role := m.role, content := m.content })
            ++ [{ role := "user", content := req.message }]
        else [{ role := "user", content := req.message }]
      match provider with
      | ProviderOutcome.failure =>
        { status := 500, content := none, sessionId := none, tokenCount := none,
          errMsg := some "Failed to process message",
          providerCalls := [(model.modelId, ctx)], store := st1 }
      | ProviderOutcome.success content tokenCount =>
        let st2 :=
          if !req.isGuest && truthy chatSessionId then
            { st1 with chatMessages := st1.chatMessages ++
                [{ sessionId := chatSessionId.getD "", role := "assistant",
                   content := content, tokenCount := tokenCount }] }
          else st1
        { status := 200, content := some content, sessionId := chatSessionId,
          tokenCount := some tokenCount, errMsg := none,
          providerCalls := [(model.modelId, ctx)], store := st2 }

/-- GET /api/chat/sessions/:id (routes.ts lines 157-176): 404 when the
session does not exist, 403 when the caller does not own it, 200 otherwise.
The endpoint performs no writes. -/
def getSessionEndpoint (st : Store) (userId id : String) : Nat :=
  match st.chatSessions.find? (fun s => s.id == id) with
  | none => 404
  | some s => if !(s.userId == userId) then 403 else 200

/-- GET /api/chat/sessions/:id/messages (routes.ts lines 179-205): same
existence and ownership checks as getSessionEndpoint, then returns the
messages. The endpoint performs no writes. -/
def getSessionMessagesEndpoint (st : Store) (userId id : String) :
    Nat × List ChatMessage :=
  match st.chatSessions.find? (fun s => s.id == id) with
  | none => (404, [])
  | some s =>
    if !(s.userId == userId) then (403, [])
    else (200, getMessagesBySessionId st id)

/-- DELETE /api/chat/sessions/:id (routes.ts lines 222-242): 403 when the
session is missing or not owned by the caller; otherwise the session row is
deleted and its messages are removed with it (the schema-level cascade the
data model prescribes for session deletion). -/
def deleteSessionEndpoint (st : Store) (userId id : String) : Nat × Store :=
  match st.chatSessions.find? (fun s => s.id == id) with
  | none => (403, st)
  | some s =>
    if !(s.userId == userId) then (403, st)
    else
      (200,
       { st with
         chatSessions := st.chatSessions.filter (fun x => !(x.id == id)),
         chatMessages := st.chatMessages.filter (fun m => !(m.sessionId == id)) })

/-- DatabaseStorage.deleteAiModel (storage layer, lines 120-135): first set
modelId to null on every chat session referencing the model, then delete
the model row; returns whether a model row was deleted. -/
def deleteAiModel (st : Store) (id : String) : Store × Bool :=
  let sessions := st.chatSessions.map
    (fun s => if s.modelId == some id then { s with modelId := none } else s)
  let found := st.aiModels.any (fun m => m.id == id)
  ({ st with chatSessions := sessions,
             aiModels := st.aiModels.filter (fun m => !(m.id == id)) },
   found)

/-- The payload isAuthenticated passes to upsertUser (profile fields derived
from the verified token). -/
structure UpsertUser where
  id : String
  email : String
  firstName : String
  lastName : String
  profileImageUrl : Option String
deriving Repr, DecidableEq

/-- DatabaseStorage.upsertUser (storage layer, lines 77-90): insert the row,
on conflict on the id update the row with the payload fields and a fresh
updatedAt. Returns the resulting row. -/
def upsertUser (st : Store) (u : UpsertUser) (now : Nat) : Store × UserRow :=
  match st.users.find? (fun w => w.id == u.id) with
  | some existing =>
    let updated : UserRow :=
      { existing with
        email := u.email, firstName := u.firstName,
        lastName := u.lastName, profileImageUrl := u.profileImageUrl,
        updatedAt := now }
    let rows := st.users.map (fun w => if w.id == u.id then updated else w)
    ({ st with users := rows }, updated)
  | none =>
    let created : UserRow :=
      { id := u.id, email := u.email, firstName := u.firstName,
        lastName := u.lastName, profileImageUrl := u.profileImageUrl,
        role := "user", updatedAt := now }
    ({ st with users := st.users ++ [created] }, created)

/-- Abbreviation for the row map the conflict-update branch of upsertUser
performs: replace every row whose id is k by r. -/
def updUsers (k : String) (r : UserRow) (l : List UserRow) : List UserRow :=
  l.map (fun w => if w.id == k then r else w)

/-- The row the insert branch of upsertUser creates (role defaults to
user). -/
def freshUserRow (u : UpsertUser) (now : Nat) : UserRow :=
  { id := u.id, email := u.email, firstName := u.firstName,
    lastName := u.lastName, profileImageUrl := u.profileImageUrl,
    role := "user", updatedAt := now }

/-- The row the conflict branch of upsertUser produces from an existing
row: payload profile fields, fresh updatedAt, id and role kept. -/
def updatedUserRow (e : UserRow) (u : UpsertUser) (now : Nat) : UserRow :=
  { e with
    email := u.email, firstName := u.firstName, lastName := u.lastName,
    profileImageUrl := u.profileImageUrl, updatedAt := now }

/-! ## Concrete fixtures used by witnesses and counterexamples -/

/-- A catalog model used by the concrete fixtures. -/
def sampleModel : AiModel :=
  { id := "m1", modelId := "openai/gpt-4", isActive := true }

/-- A store holding one session s1 owned by alice with three persisted
messages (user "a", assistant "b", user "c"), one catalog model and a
configured api key. -/
def storeA : Store :=
  { users := [],
    aiModels := [sampleModel],
    chatSessions := [{ id := "s1", userId := "alice", title := "t", modelId := some "m1" }],
    chatMessages :=
      [ { sessionId := "s1", role := "user", content := "a", tokenCount := 1 },
        { sessionId := "s1", role := "assistant", content := "b", tokenCount := 1 },
        { sessionId := "s1", role := "user", content := "c", tokenCount := 1 } ],
    apiKey := some "k",
    nextSessionId := 0 }

/-! ## Helper lemmas -/

theorem freshSessionId_ne_empty (st : Store) : freshSessionId st ≠ "" := by
  intro h
  have h2 : ('s' :: Nat.toDigits 10 st.nextSessionId) = ([] : List Char) :=
    congrArg String.data h
  exact List.noConfusion h2

theorem freshSessionId_beq_empty (st : Store) : (freshSessionId st == "") = false :=
  beq_eq_false_iff_ne.mpr (freshSessionId_ne_empty st)

/-! ## Claim theorems -/

/-- C1: the claim states that an authenticated chat request on a session
with n prior messages sends exactly n+1 messages to the provider, the new
user turn appearing once. The code persists the new user message, reloads
the full session history (which now contains it) and appends the new
message again: on session s1 with 3 prior messages it sends 5 messages,
the new turn "d" appearing twice. -/
theorem chat_send_duplicates_user_turn :
    (handleChatMessage storeA
      { message := "d", modelId := "m1", sessionId := some "s1", isGuest := false,
        auth := some "alice" }
      (ProviderOutcome.success "ok" 2)).providerCalls =
    [("openai/gpt-4",
      [ { role := "user", content := "a" },
        { role := "assistant", content := "b" },
        { role := "user", content := "c" },
        { role := "user", content := "d" },
        { role := "user", content := "d" } ])] := rfl

/-- C3: the claim states that a request with no resolvable identity never
creates a Session or Message row. The assistant-persistence guard of the
handler only checks !isGuest && chatSessionId, not the identity: an
unauthenticated request with isGuest unset that supplies sessionId s1 gets
an assistant Message row persisted into s1 when the provider succeeds. -/
theorem unidentified_request_persists_assistant_message :
    (handleChatMessage storeA
      { message := "d", modelId := "m1", sessionId := some "s1", isGuest := false,
        auth := none }
      (ProviderOutcome.success "reply" 3)).store.chatMessages =
    storeA.chatMessages ++
      [{ sessionId := "s1", role := "assistant", content := "reply", tokenCount := 3 }] := rfl

/-- C5 counterexample: the claim states that appending via the chat-send
endpoint with a sessionId the caller does not own hard-fails with 403 and
changes no state. The chat-send handler performs no ownership check: bob,
authenticated, sending into session s1 owned by alice gets a 200 response
and two message rows are appended to s1. -/
theorem chat_send_skips_ownership_check :
    (handleChatMessage storeA
      { message := "d", modelId := "m1", sessionId := some "s1", isGuest := false,
        auth := some "bob" }
      (ProviderOutcome.success "r" 1)).status = 200 ∧
    (handleChatMessage storeA
      { message := "d", modelId := "m1", sessionId := some "s1", isGuest := false,
        auth := some "bob" }
      (ProviderOutcome.success "r" 1)).store.chatMessages =
    storeA.chatMessages ++
      [ { sessionId := "s1", role := "user", content := "d", tokenCount := 1 },
        { sessionId := "s1", role := "assistant", content := "r", tokenCount := 1 } ] :=
  ⟨rfl, rfl⟩

/-- C6: with a nonempty message and model id in the body, a missing or
empty provider api key makes the chat request fail with 500 and an unknown
model id (with the key configured) makes it fail with 404; in both cases
the response is the bare error result: the store is unchanged and no
provider call is attempted. -/
theorem model_resolution_failure_no_side_effects
    (st : Store) (req : ChatRequest) (prov : ProviderOutcome)
    (hmsg : req.message ≠ "") (hmid : req.modelId ≠ "") :
    (hasApiKey st = false →
      handleChatMessage st req prov =
        errResult 500 "OpenRouter API key not configured" st) ∧
    (hasApiKey st = true → getAiModelById st req.modelId = none →
      handleChatMessage st req prov = errResult 404 "Model not found" st) := by
  constructor
  · intro hk
    simp [handleChatMessage, hmsg, hmid, hk]
  · intro hk hm
    simp [handleChatMessage, hmsg, hmid, hk, hm]

/-- C6 witness: on the concrete store with the api key removed the request
returns the 500 error result, and on the store with the key but an unknown
model id it returns the 404 error result. -/
theorem model_resolution_failure_no_side_effects_witness :
    handleChatMessage { storeA with apiKey := none }
      { message := "d", modelId := "m1", sessionId := some "s1", isGuest := false,
        auth := some "alice" } (ProviderOutcome.success "ok" 2) =
      errResult 500 "OpenRouter API key not configured" { storeA with apiKey := none } ∧
    handleChatMessage storeA
      { message := "d", modelId := "zz", sessionId := some "s1", isGuest := false,
        auth := some "alice" } (ProviderOutcome.success "ok" 2) =
      errResult 404 "Model not found" storeA := by
  constructor
  · exact (model_resolution_failure_no_side_effects { storeA with apiKey := none }
      { message := "d", modelId := "m1", sessionId := some "s1", isGuest := false,
        auth := some "alice" } (ProviderOutcome.success "ok" 2)
      (by decide) (by decide)).1 (by decide)
  · exact (model_resolution_failure_no_side_effects storeA
      { message := "d", modelId := "zz", sessionId := some "s1", isGuest := false,
        auth := some "alice" } (ProviderOutcome.success "ok" 2)
      (by decide) (by decide)).2 (by decide) (by rfl)

/-- Helper: full description of the successful authenticated no-sessionId
request: status, returned session id, the appended session row and the two
appended message rows. -/
theorem handle_new_session_rows
    (st : Store) (uid msg mid c : String) (t : Nat) (m : AiModel)
    (hmsg : msg ≠ "") (hmid : mid ≠ "") (huid : uid ≠ "")
    (hkey : hasApiKey st = true)
    (hmodel : getAiModelById st mid = some m) :
    (handleChatMessage st
      { message := msg, modelId := mid, sessionId := none, isGuest := false,
        auth := some uid } (ProviderOutcome.success c t)).status = 200 ∧
    (handleChatMessage st
      { message := msg, modelId := mid, sessionId := none, isGuest := false,
        auth := some uid } (ProviderOutcome.success c t)).sessionId =
      some (freshSessionId st) ∧
    (handleChatMessage st
      { message := msg, modelId := mid, sessionId := none, isGuest := false,
        auth := some uid } (ProviderOutcome.success c t)).store.chatSessions =
      st.chatSessions ++
        [{ id := freshSessionId st, userId := uid, title := mkTitle msg,
           modelId := some mid }] ∧
    (handleChatMessage st
      { message := msg, modelId := mid, sessionId := none, isGuest := false,
        auth := some uid } (ProviderOutcome.success c t)).store.chatMessages =
      st.chatMessages ++
        [ { sessionId := freshSessionId st, role := "user", content := msg,
            tokenCount := (jsLength msg + 3) / 4 },
          { sessionId := freshSessionId st, role := "assistant", content := c,
            tokenCount := t } ] := by
  refine ⟨?_, ?_, ?_, ?_⟩ <;>
    simp [handleChatMessage, truthy, hmsg, hmid, huid, hkey, hmodel,
      freshSessionId_beq_empty]

/-- C2: an authenticated, non-guest chat request with no sessionId whose
model resolves and whose provider call succeeds returns 200 with the id of
a newly created session owned by the caller, and persists exactly one user
Message followed by one assistant Message in that session. -/
theorem authed_new_session_creates_rows
    (st : Store) (uid msg mid c : String) (t : Nat) (m : AiModel)
    (hmsg : msg ≠ "") (hmid : mid ≠ "") (huid : uid ≠ "")
    (hkey : hasApiKey st = true)
    (hmodel : getAiModelById st mid = some m) :
    (handleChatMessage st
      { message := msg, modelId := mid, sessionId := none, isGuest := false,
        auth := some uid } (ProviderOutcome.success c t)).status = 200 ∧
    (handleChatMessage st
      { message := msg, modelId := mid, sessionId := none, isGuest := false,
        auth := some uid } (ProviderOutcome.success c t)).sessionId =
      some (freshSessionId st) ∧
    (handleChatMessage st
      { message := msg, modelId := mid, sessionId := none, isGuest := false,
        auth := some uid } (ProviderOutcome.success c t)).store.chatSessions =
      st.chatSessions ++
        [{ id := freshSessionId st, userId := uid, title := mkTitle msg,
           modelId := some mid }] ∧
    (handleChatMessage st
      { message := msg, modelId := mid, sessionId := none, isGuest := false,
        auth := some uid } (ProviderOutcome.success c t)).store.chatMessages =
      st.chatMessages ++
        [ { sessionId := freshSessionId st, role := "user", content := msg,
            tokenCount := (jsLength msg + 3) / 4 },
          { sessionId := freshSessionId st, role := "assistant", content := c,
            tokenCount := t } ] :=
  handle_new_session_rows st uid msg mid c t m hmsg hmid huid hkey hmodel

/-- C2 witness: alice sends "Hi" with model m1 and no sessionId against the
concrete store; the request returns the fresh session id s0 and appends
the new session and the two messages. -/
theorem authed_new_session_creates_rows_witness :
    (handleChatMessage storeA
      { message := "Hi", modelId := "m1", sessionId := none, isGuest := false,
        auth := some "alice" } (ProviderOutcome.success "Hello" 7)).sessionId =
      some (freshSessionId storeA) ∧
    (handleChatMessage storeA
      { message := "Hi", modelId := "m1", sessionId := none, isGuest := false,
        auth := some "alice" } (ProviderOutcome.success "Hello" 7)).store.chatSessions =
      storeA.chatSessions ++
        [{ id := freshSessionId storeA, userId := "alice", title := mkTitle "Hi",
           modelId := some "m1" }] := by
  have h := authed_new_session_creates_rows storeA "alice" "Hi" "m1" "Hello" 7
    sampleModel (by decide) (by decide) (by decide) (by decide) (by rfl)
  exact ⟨h.2.1, h.2.2.1⟩

/-- C4: when the provider call fails on an authenticated, non-guest request
(after the user message has been persisted), the request returns the 500
error, the persisted user message is still present unchanged and
retrievable for its session, and no assistant message was appended. -/
theorem provider_failure_keeps_user_message
    (st : Store) (uid msg mid : String) (sidOpt : Option String) (m : AiModel)
    (hmsg : msg ≠ "") (hmid : mid ≠ "") (huid : uid ≠ "")
    (hkey : hasApiKey st = true)
    (hmodel : getAiModelById st mid = some m) :
    (handleChatMessage st
      { message := msg, modelId := mid, sessionId := sidOpt, isGuest := false,
        auth := some uid } ProviderOutcome.failure).status = 500 ∧
    (handleChatMessage st
      { message := msg, modelId := mid, sessionId := sidOpt, isGuest := false,
        auth := some uid } ProviderOutcome.failure).errMsg =
      some "Failed to process message" ∧
    (handleChatMessage st
      { message := msg, modelId := mid, sessionId := sidOpt, isGuest := false,
        auth := some uid } ProviderOutcome.failure).store.chatMessages =
      st.chatMessages ++
        [{ sessionId := if truthy sidOpt then sidOpt.getD "" else freshSessionId st,
           role := "user", content := msg,
           tokenCount := (jsLength msg + 3) / 4 }] ∧
    ({ sessionId := if truthy sidOpt then sidOpt.getD "" else freshSessionId st,
       role := "user", content := msg,
       tokenCount := (jsLength msg + 3) / 4 } : ChatMessage) ∈
      getMessagesBySessionId
        (handleChatMessage st
          { message := msg, modelId := mid, sessionId := sidOpt, isGuest := false,
            auth := some uid } ProviderOutcome.failure).store
        (if truthy sidOpt then sidOpt.getD "" else freshSessionId st) := by
  have hauth : truthy (some uid) = true := by simp [truthy, huid]
  have hfresh : truthy (some (freshSessionId st)) = true := by
    simp [truthy, freshSessionId_beq_empty]
  cases hb : truthy sidOpt <;>
    refine ⟨?_, ?_, ?_, ?_⟩ <;>
      simp [handleChatMessage, getMessagesBySessionId, hauth, hfresh, hb, hmsg,
        hmid, hkey, hmodel]

/-- C4 witness: alice sends into her session s1 of the concrete store and
the provider fails; the store keeps the three prior messages plus her new
user message and nothing else, and the status is 500. -/
theorem provider_failure_keeps_user_message_witness :
    (handleChatMessage storeA
      { message := "d", modelId := "m1", sessionId := some "s1", isGuest := false,
        auth := some "alice" } ProviderOutcome.failure).status = 500 ∧
    (handleChatMessage storeA
      { message := "d", modelId := "m1", sessionId := some "s1", isGuest := false,
        auth := some "alice" } ProviderOutcome.failure).store.chatMessages =
      storeA.chatMessages ++
        [{ sessionId := "s1", role := "user", content := "d", tokenCount := 1 }] := by
  have h := provider_failure_keeps_user_message storeA "alice" "d" "m1" (some "s1")
    sampleModel (by decide) (by decide) (by decide) (by decide) (by rfl)
  exact ⟨h.1, h.2.2.1⟩

/-- C7: a chat request flagged isGuest, or carrying no resolvable identity,
that supplies a nonempty sessionId is served without any ownership or
authentication check on that id: the provider context is the full persisted
message list of that session followed by the new user turn, the response
carries the supplied sessionId, and no session row is created or removed. -/
theorem guest_request_uses_supplied_session
    (st : Store) (req : ChatRequest) (sid c : String) (t : Nat) (m : AiModel)
    (hguest : req.isGuest = true ∨ req.auth = none)
    (hsid : req.sessionId = some sid) (hsid2 : sid ≠ "")
    (hmsg : req.message ≠ "") (hmid : req.modelId ≠ "")
    (hkey : hasApiKey st = true)
    (hmodel : getAiModelById st req.modelId = some m) :
    (handleChatMessage st req (ProviderOutcome.success c t)).status = 200 ∧
    (handleChatMessage st req (ProviderOutcome.success c t)).sessionId = some sid ∧
    (handleChatMessage st req (ProviderOutcome.success c t)).providerCalls =
      [(m.modelId,
        (getMessagesBySessionId st sid).map
          (fun x => { role := x.role, content := x.content }) ++
          [{ role := "user", content := req.message }])] ∧
    (handleChatMessage st req (ProviderOutcome.success c t)).store.chatSessions =
      st.chatSessions := by
  have hts : truthy req.sessionId = true := by simp [hsid, truthy, hsid2]
  have hts2 : truthy (some sid) = true := by simp [truthy, hsid2]
  rcases hguest with hg | hg
  · refine ⟨?_, ?_, ?_, ?_⟩ <;>
      simp [handleChatMessage, hg, hsid, hts, hts2, hmsg, hmid, hkey, hmodel]
  · cases hgb : req.isGuest <;>
      refine ⟨?_, ?_, ?_, ?_⟩ <;>
        simp [handleChatMessage, hg, hgb, hsid, hts, hts2, hsid2, hmsg, hmid,
          hkey, hmodel, truthy]

/-- C7 witness: a guest request naming session s1 of the concrete store is
answered with sessionId s1 and a provider context of the three persisted
messages plus the new user turn, with the session list unchanged. -/
theorem guest_request_uses_supplied_session_witness :
    (handleChatMessage storeA
      { message := "d", modelId := "m1", sessionId := some "s1", isGuest := true,
        auth := some "bob" } (ProviderOutcome.success "reply" 3)).sessionId =
      some "s1" ∧
    (handleChatMessage storeA
      { message := "d", modelId := "m1", sessionId := some "s1", isGuest := true,
        auth := some "bob" } (ProviderOutcome.success "reply" 3)).providerCalls =
      [("openai/gpt-4",
        (getMessagesBySessionId storeA "s1").map
          (fun x => { role := x.role, content := x.content }) ++
          [{ role := "user", content := "d" }])] := by
  have h := guest_request_uses_supplied_session storeA
    { message := "d", modelId := "m1", sessionId := some "s1", isGuest := true,
      auth := some "bob" } "s1" "reply" 3 sampleModel (Or.inl rfl) rfl
    (by decide) (by decide) (by decide) (by decide) (by rfl)
  exact ⟨h.2.1, h.2.2.1⟩

/-- C8: deleting a catalog model keeps every chat session (same count, same
order, same id, owner and title) and every chat message; the only change to
the session table is that sessions referencing the deleted model get a null
modelId. -/
theorem delete_model_preserves_sessions_and_messages (st : Store) (mid : String) :
    (deleteAiModel st mid).1.chatMessages = st.chatMessages ∧
    (deleteAiModel st mid).1.chatSessions =
      st.chatSessions.map
        (fun s => if s.modelId == some mid then { s with modelId := none } else s) ∧
    (deleteAiModel st mid).1.chatSessions.length = st.chatSessions.length := by
  refine ⟨rfl, rfl, ?_⟩
  simp [deleteAiModel]

/-- Helper for C9: a message of at most 50 characters is its own title
(slice of 50 is the identity and no ellipsis is appended). -/
theorem mkTitle_of_short (msg : String) (h : jsLength msg ≤ 50) : mkTitle msg = msg := by
  have h1 : msg.data.take 50 = msg.data := List.take_of_length_le h
  have h2 : ¬ jsLength msg > 50 := Nat.not_lt.mpr h
  show jsSlice msg 50 ++ (if jsLength msg > 50 then "..." else "") = msg
  rw [if_neg h2]
  have h3 : (jsSlice msg 50 ++ "").data = msg.data.take 50 ++ [] := rfl
  have h4 : (jsSlice msg 50 ++ "").data = msg.data := by
    rw [h3, List.append_nil, h1]
  calc jsSlice msg 50 ++ "" = String.mk ((jsSlice msg 50 ++ "").data) := rfl
    _ = String.mk msg.data := by rw [h4]
    _ = msg := rfl

/-- C9: the session created for the first message of an authenticated
conversation is titled with the first 50 characters of the message, with
an ellipsis appended exactly when the message is longer than 50
characters; a message of at most 50 characters becomes the title
verbatim. -/
theorem new_session_title_rule
    (st : Store) (uid msg mid c : String) (t : Nat) (m : AiModel)
    (hmsg : msg ≠ "") (hmid : mid ≠ "") (huid : uid ≠ "")
    (hkey : hasApiKey st = true)
    (hmodel : getAiModelById st mid = some m) :
    ∃ s : ChatSession,
      (handleChatMessage st
        { message := msg, modelId := mid, sessionId := none, isGuest := false,
          auth := some uid } (ProviderOutcome.success c t)).store.chatSessions.getLast?
        = some s ∧
      s.title = jsSlice msg 50 ++ (if jsLength msg > 50 then "..." else "") ∧
      (jsLength msg ≤ 50 → s.title = msg) := by
  have h := handle_new_session_rows st uid msg mid c t m hmsg hmid huid hkey hmodel
  refine ⟨{ id := freshSessionId st, userId := uid, title := mkTitle msg,
            modelId := some mid }, ?_, rfl, fun hle => mkTitle_of_short msg hle⟩
  rw [h.2.2.1]
  exact List.getLast?_concat _

/-- C9 witness: the short message "Hi" becomes the title verbatim on the
session created against the concrete store, and the general title formula
evaluates to "Hi" there. -/
theorem new_session_title_rule_witness :
    ∃ s : ChatSession,
      (handleChatMessage storeA
        { message := "Hi", modelId := "m1", sessionId := none, isGuest := false,
          auth := some "alice" }
        (ProviderOutcome.success "Hello" 7)).store.chatSessions.getLast? = some s ∧
      s.title = "Hi" := by
  obtain ⟨s, hs, _, hshort⟩ := new_session_title_rule storeA "alice" "Hi" "m1"
    "Hello" 7 sampleModel (by decide) (by decide) (by decide) (by decide) (by rfl)
  exact ⟨s, hs, hshort (by decide)⟩

/-- C5 (amended): for the session read, session-messages read and session
delete endpoints, an authenticated caller acting on an existing session
they do not own receives 403 and no state is changed. (The chat-send
endpoint performs no such ownership check; see the counterexample.) -/
theorem session_endpoints_enforce_ownership
    (st : Store) (uid sid : String) (s : ChatSession)
    (hfind : st.chatSessions.find? (fun x => x.id == sid) = some s)
    (hown : s.userId ≠ uid) :
    getSessionEndpoint st uid sid = 403 ∧
    getSessionMessagesEndpoint st uid sid = (403, []) ∧
    deleteSessionEndpoint st uid sid = (403, st) := by
  have hb : (s.userId == uid) = false := beq_eq_false_iff_ne.mpr hown
  refine ⟨?_, ?_, ?_⟩ <;>
    simp [getSessionEndpoint, getSessionMessagesEndpoint, deleteSessionEndpoint,
      hfind, hb]

/-- C5 witness: bob, acting on session s1 owned by alice in the concrete
store, gets 403 from the session endpoints and the delete leaves the store
untouched. -/
theorem session_endpoints_enforce_ownership_witness :
    getSessionEndpoint storeA "bob" "s1" = 403 ∧
    deleteSessionEndpoint storeA "bob" "s1" = (403, storeA) := by
  have h := session_endpoints_enforce_ownership storeA "bob" "s1"
    { id := "s1", userId := "alice", title := "t", modelId := some "m1" }
    (by rfl) (by decide)
  exact ⟨h.1, h.2.2⟩

/-! ## List helpers for the identity upsert -/

theorem countP_map_update {α : Type} (p : α → Bool) (r : α) (hr : p r = true)
    (l : List α) :
    (l.map (fun w => if p w then r else w)).countP p = l.countP p := by
  induction l with
  | nil => rfl
  | cons a l ih =>
    cases ha : p a <;>
      simp [List.countP_cons, ha, hr, ih]

theorem filter_map_update {α : Type} (p : α → Bool) (r : α) (hr : p r = true)
    (l : List α) :
    (l.map (fun w => if p w then r else w)).filter p =
      List.replicate (l.countP p) r := by
  induction l with
  | nil => rfl
  | cons a l ih =>
    cases ha : p a <;>
      simp [List.filter_cons, List.countP_cons, ha, hr, ih, List.replicate_succ]

theorem find?_append_of_none {α : Type} (p : α → Bool) {l₁ : List α} (l₂ : List α)
    (h : l₁.find? p = none) : (l₁ ++ l₂).find? p = l₂.find? p := by
  induction l₁ with
  | nil => rfl
  | cons a l ih =>
    cases ha : p a
    · rw [List.find?_cons_of_neg _ (by simp [ha])] at h
      rw [List.cons_append, List.find?_cons_of_neg _ (by simp [ha])]
      exact ih h
    · rw [List.find?_cons_of_pos _ ha] at h
      exact Option.noConfusion h

theorem find?_map_update {α : Type} (p : α → Bool) (r : α) (hr : p r = true)
    {l : List α} {e : α} (h : l.find? p = some e) :
    (l.map (fun w => if p w then r else w)).find? p = some r := by
  induction l with
  | nil => exact Option.noConfusion h
  | cons a l ih =>
    cases ha : p a
    · rw [List.find?_cons_of_neg _ (by simp [ha])] at h
      simp only [List.map_cons, ha, if_neg (by simp [ha] : ¬ p a = true)]
      rw [List.find?_cons_of_neg _ (by simp [ha])]
      exact ih h
    · simp only [List.map_cons, ha, if_pos rfl]
      exact List.find?_cons_of_pos _ hr

/-- Unfolding upsertUser when no row with the payload id exists: the fresh
row is appended. -/
theorem upsertUser_find_none (st : Store) (u : UpsertUser) (now : Nat)
    (hf : st.users.find? (fun w => w.id == u.id) = none) :
    upsertUser st u now =
      ({ st with users := st.users ++ [freshUserRow u now] }, freshUserRow u now) := by
  simp [upsertUser, hf, freshUserRow]

/-- Unfolding upsertUser when a row with the payload id exists: every row
with that id is replaced by the updated row. -/
theorem upsertUser_find_some (st : Store) (u : UpsertUser) (e : UserRow) (now : Nat)
    (hf : st.users.find? (fun w => w.id == u.id) = some e) :
    upsertUser st u now =
      ({ st with users := updUsers u.id (updatedUserRow e u now) st.users },
       updatedUserRow e u now) := by
  simp [upsertUser, hf, updUsers, updatedUserRow]

/-- C10: upserting the same verified-token payload twice (as two successive
verifications of the same token do) returns a row with the payload id both
times, the second upsert adds no row, and afterwards exactly one user row
exists for that id, carrying the payload profile fields and the latest
updatedAt; the role of a pre-existing row is preserved. Hypothesis: the
store respects the primary key (at most one row per id). -/
theorem upsert_user_idempotent
    (st : Store) (u : UpsertUser) (t1 t2 : Nat)
    (hone : (st.users.filter (fun w => w.id == u.id)).length ≤ 1) :
    ((upsertUser st u t1).2).id = u.id ∧
    ((upsertUser (upsertUser st u t1).1 u t2).2).id = u.id ∧
    (upsertUser (upsertUser st u t1).1 u t2).1.users.length =
      (upsertUser st u t1).1.users.length ∧
    ∃ r : String,
      (upsertUser (upsertUser st u t1).1 u t2).1.users.filter
          (fun w => w.id == u.id) =
        [{ id := u.id, email := u.email, firstName := u.firstName,
           lastName := u.lastName, profileImageUrl := u.profileImageUrl,
           role := r, updatedAt := t2 }] := by
  cases hf : st.users.find? (fun w => w.id == u.id) with
  | none =>
    have hc0 : st.users.countP (fun w => w.id == u.id) = 0 :=
      List.countP_eq_zero.mpr (List.find?_eq_none.mp hf)
    have h1 := upsertUser_find_none st u t1 hf
    have hfP1 : (st.users ++ [freshUserRow u t1]).find? (fun w => w.id == u.id) =
        some (freshUserRow u t1) :=
      (find?_append_of_none _ _ hf).trans
        (List.find?_cons_of_pos _ (by simp [freshUserRow]))
    have h3 : upsertUser (upsertUser st u t1).1 u t2 =
        ({ st with
           users := updUsers u.id (freshUserRow u t2) (st.users ++ [freshUserRow u t1]) },
         freshUserRow u t2) := by
      rw [h1]
      have h2 := upsertUser_find_some
        { st with users := st.users ++ [freshUserRow u t1] }
        u (freshUserRow u t1) t2 hfP1
      rw [h2]
      rfl
    refine ⟨by rw [h1]; rfl, by rw [h3]; rfl, by rw [h3, h1]; simp [updUsers],
      "user", ?_⟩
    rw [h3]
    have hflt := filter_map_update (fun w : UserRow => w.id == u.id)
      (freshUserRow u t2) (by simp [freshUserRow]) (st.users ++ [freshUserRow u t1])
    show (updUsers u.id (freshUserRow u t2) (st.users ++ [freshUserRow u t1])).filter
        (fun w => w.id == u.id) = _
    rw [updUsers, hflt]
    simp [List.countP_append, hc0, List.countP_cons, freshUserRow]
  | some e =>
    have hpe0 := List.find?_some hf
    have hpe : (e.id == u.id) = true := hpe0
    have heq : e.id = u.id := eq_of_beq hpe
    have hmem : e ∈ st.users := List.mem_of_find?_eq_some hf
    have hc1 : st.users.countP (fun w => w.id == u.id) = 1 := by
      have hge : 0 < (st.users.filter (fun w => w.id == u.id)).length := by
        rw [List.length_pos]
        intro hnil
        have hin : e ∈ st.users.filter (fun w => w.id == u.id) :=
          List.mem_filter.mpr ⟨hmem, hpe⟩
        rw [hnil] at hin
        exact List.not_mem_nil e hin
      rw [List.countP_eq_length_filter]
      omega
    have h1 := upsertUser_find_some st u e t1 hf
    have hfP1 : (updUsers u.id (updatedUserRow e u t1) st.users).find?
        (fun w => w.id == u.id) = some (updatedUserRow e u t1) := by
      rw [updUsers]
      exact find?_map_update _ _ (by simp [updatedUserRow, heq]) hf
    have h3 : upsertUser (upsertUser st u t1).1 u t2 =
        ({ st with
           users := updUsers u.id (updatedUserRow e u t2)
             (updUsers u.id (updatedUserRow e u t1) st.users) },
         updatedUserRow e u t2) := by
      rw [h1]
      have h2 := upsertUser_find_some
        { st with users := updUsers u.id (updatedUserRow e u t1) st.users }
        u (updatedUserRow e u t1) t2 hfP1
      rw [h2]
      rfl
    refine ⟨by rw [h1]; exact heq, by rw [h3]; exact heq,
      by rw [h3, h1]; simp [updUsers], e.role, ?_⟩
    rw [h3]
    have hflt := filter_map_update (fun w : UserRow => w.id == u.id)
      (updatedUserRow e u t2) (by simp [updatedUserRow, heq])
      (updUsers u.id (updatedUserRow e u t1) st.users)
    have hcm := countP_map_update (fun w : UserRow => w.id == u.id)
      (updatedUserRow e u t1) (by simp [updatedUserRow, heq]) st.users
    show (updUsers u.id (updatedUserRow e u t2)
        (updUsers u.id (updatedUserRow e u t1) st.users)).filter
        (fun w => w.id == u.id) = _
    rw [updUsers, hflt]
    have hcnt : (updUsers u.id (updatedUserRow e u t1) st.users).countP
        (fun w => w.id == u.id) = 1 := by
      rw [updUsers, hcm, hc1]
    rw [hcnt]
    simp [updatedUserRow, heq]

/-- C10 witness: upserting alice's payload twice into the empty-user
concrete store returns id alice both times and leaves exactly the single
alice row with the payload fields and the second timestamp. -/
theorem upsert_user_idempotent_witness :
    ((upsertUser storeA
        { id := "alice", email := "a@x", firstName := "A", lastName := "L",
          profileImageUrl := none } 1).2).id = "alice" ∧
    (upsertUser (upsertUser storeA
        { id := "alice", email := "a@x", firstName := "A", lastName := "L",
          profileImageUrl := none } 1).1
        { id := "alice", email := "a@x", firstName := "A", lastName := "L",
          profileImageUrl := none } 2).1.users.length =
      (upsertUser storeA
        { id := "alice", email := "a@x", firstName := "A", lastName := "L",
          profileImageUrl := none } 1).1.users.length := by
  have h := upsert_user_idempotent storeA
    { id := "alice", email := "a@x", firstName := "A", lastName := "L",
      profileImageUrl := none } 1 2 (by decide)
  exact ⟨h.1, h.2.2.1⟩

end AITextGenie
